import Mathlib

/-!
Verification development for the parquet_console repository.

The definitions below are a shallow embedding of the program's data model and
operations:

* `src/parquet.rs` — the statistics-normalization layer (`HumanFriendlyStats`,
  the `From` impls for the per-type statistics structs, the
  `ColumnChunkMetaDataExt::stats` dispatch, and `sample_column`);
* `src/views/column_chunk.rs` — the second per-physical-type statistics
  dispatch in `ColumnChunkDetailView::from`;
* `src/lib.rs` — the navigation state machine (`DetailMode`, `ViewState`,
  `State`, `App::handle_events`, and the row-group indexing in `App::render`).

External-library types (parquet2 metadata and statistics structs, crossterm
events, the parquet column readers) are embedded structurally: only the fields
and behaviors the program touches are modelled.  Statistics are modelled as the
already-deserialized tagged union the external reader hands over (the spec
treats the reader's output as an opaque, already-validated structure); the
tag of the union plays the role of the runtime type seen by `as_any()`
downcasts.  Machine integers carried by the metadata (`i64` counts) are
modelled as `Int`; the program performs no arithmetic on them.  `f32`/`f64`
values are only ever formatted by the program (`{:?}` / `.to_string()`), never
computed with, so a float value is modelled by the string it renders as.
-/

/-- The `parquet2::schema::types::PhysicalType` enum.  `FixedLenByteArray` carries the
byte length, as in the library. -/
inductive PhysicalType where
  | Boolean
  | Int32
  | Int64
  | Int96
  | Float
  | Double
  | ByteArray
  | FixedLenByteArray (size : Nat)
deriving DecidableEq

/-- A model of an `f32` value: the program only ever renders floats
(`format!` with `{:?}`, or `.to_string()`), so the value is represented by
that rendering. -/
structure F32 where
  rendered : String
deriving DecidableEq

/-- A model of an `f64` value, as for `F32`. -/
structure F64 where
  rendered : String
deriving DecidableEq

/-- A model of an `[u32; 3]` Int96 value (never inspected by the program). -/
structure Int96Value where
  lo : Nat
  mid : Nat
  hi : Nat
deriving DecidableEq

/-- The `parquet2::statistics::PrimitiveStatistics<T>` struct (the fields the program
reads; counts are `Option<i64>`). -/
structure PrimitiveStatistics (T : Type) where
  null_count : Option Int
  distinct_count : Option Int
  min_value : Option T
  max_value : Option T
deriving DecidableEq

/-- The `parquet2::statistics::BooleanStatistics` struct. -/
structure BooleanStatistics where
  null_count : Option Int
  distinct_count : Option Int
  min_value : Option Bool
  max_value : Option Bool
deriving DecidableEq

/-- The `parquet2::statistics::BinaryStatistics` struct; min/max are raw byte strings
(`Vec<u8>`, each element a byte value `< 256`). -/
structure BinaryStatistics where
  null_count : Option Int
  distinct_count : Option Int
  min_value : Option (List Nat)
  max_value : Option (List Nat)
deriving DecidableEq

/-- The `parquet2::statistics::FixedLenStatistics` struct. -/
structure FixedLenStatistics where
  null_count : Option Int
  distinct_count : Option Int
  min_value : Option (List Nat)
  max_value : Option (List Nat)
deriving DecidableEq

/-- The type-erased `Arc<dyn Statistics>` held by a column chunk, as the
closed union of the concrete statistics types the library produces.  The
constructor tag models the runtime type consulted by the `as_any()`
downcasts. -/
inductive Statistics where
  | boolean (s : BooleanStatistics)
  | int32 (s : PrimitiveStatistics Int)
  | int64 (s : PrimitiveStatistics Int)
  | int96 (s : PrimitiveStatistics Int96Value)
  | float (s : PrimitiveStatistics F32)
  | double (s : PrimitiveStatistics F64)
  | binary (s : BinaryStatistics)
  | fixedLen (s : FixedLenStatistics)
deriving DecidableEq

/-- The downcast `downcast_ref::<BooleanStatistics>().cloned()`. -/
def Statistics.downcastBoolean : Statistics → Option BooleanStatistics
  | .boolean s => some s
  | _ => none

/-- The downcast `downcast_ref::<PrimitiveStatistics<i32>>().cloned()`. -/
def Statistics.downcastInt32 : Statistics → Option (PrimitiveStatistics Int)
  | .int32 s => some s
  | _ => none

/-- The downcast `downcast_ref::<PrimitiveStatistics<i64>>().cloned()`. -/
def Statistics.downcastInt64 : Statistics → Option (PrimitiveStatistics Int)
  | .int64 s => some s
  | _ => none

/-- The downcast `downcast_ref::<PrimitiveStatistics<f32>>().cloned()`. -/
def Statistics.downcastFloat : Statistics → Option (PrimitiveStatistics F32)
  | .float s => some s
  | _ => none

/-- The downcast `downcast_ref::<PrimitiveStatistics<f64>>().cloned()`. -/
def Statistics.downcastDouble : Statistics → Option (PrimitiveStatistics F64)
  | .double s => some s
  | _ => none

/-- The downcast `downcast_ref::<BinaryStatistics>().cloned()`. -/
def Statistics.downcastBinary : Statistics → Option BinaryStatistics
  | .binary s => some s
  | _ => none

/-- The downcast `downcast_ref::<FixedLenStatistics>().cloned()`. -/
def Statistics.downcastFixedLen : Statistics → Option FixedLenStatistics
  | .fixedLen s => some s
  | _ => none

/-- The `parquet2::metadata::ColumnChunkMetaData` struct, restricted to the fields the
program reads: the dotted schema path, the physical type, and the (optional)
statistics. -/
structure ColumnChunkMetaData where
  path_in_schema : List String
  physical_type : PhysicalType
  statistics : Option Statistics
deriving DecidableEq

/-- The `parquet2::metadata::RowGroupMetaData` struct, restricted to the fields the
program reads. -/
structure RowGroupMetaData where
  columns : List ColumnChunkMetaData
  total_byte_size : Int
deriving DecidableEq

/-- The `parquet2::metadata::FileMetaData` struct, restricted to the fields the program
reads. -/
structure FileMetaData where
  num_rows : Int
  row_groups : List RowGroupMetaData
deriving DecidableEq

/-- One step of strict UTF-8 decoding over raw bytes, following the UTF-8
validation Rust's `String::from_utf8` performs (RFC 3629: continuation bytes
in `0x80..0xBF`, overlong encodings, surrogate code points and code points
above `0x10FFFF` rejected).  Returns `none` on the first invalid sequence. -/
def utf8DecodeChars : List Nat → Option (List Char)
  | [] => some []
  | b :: rest =>
    if b < 0x80 then
      (utf8DecodeChars rest).map (fun cs => Char.ofNat b :: cs)
    else if b < 0xC2 then
      none
    else if b < 0xE0 then
      match rest with
      | b2 :: rest2 =>
        if 0x80 ≤ b2 ∧ b2 < 0xC0 then
          (utf8DecodeChars rest2).map (fun cs =>
            Char.ofNat ((b - 0xC0) * 0x40 + (b2 - 0x80)) :: cs)
        else none
      | [] => none
    else if b < 0xF0 then
      match rest with
      | b2 :: b3 :: rest3 =>
        if (if b = 0xE0 then 0xA0 else 0x80) ≤ b2 ∧
            b2 < (if b = 0xED then 0xA0 else 0xC0) ∧
            0x80 ≤ b3 ∧ b3 < 0xC0 then
          (utf8DecodeChars rest3).map (fun cs =>
            Char.ofNat ((b - 0xE0) * 0x1000 + (b2 - 0x80) * 0x40 + (b3 - 0x80)) :: cs)
        else none
      | _ => none
    else if b < 0xF5 then
      match rest with
      | b2 :: b3 :: b4 :: rest4 =>
        if (if b = 0xF0 then 0x90 else 0x80) ≤ b2 ∧
            b2 < (if b = 0xF4 then 0x90 else 0xC0) ∧
            0x80 ≤ b3 ∧ b3 < 0xC0 ∧ 0x80 ≤ b4 ∧ b4 < 0xC0 then
          (utf8DecodeChars rest4).map (fun cs =>
            Char.ofNat ((b - 0xF0) * 0x40000 + (b2 - 0x80) * 0x1000 +
              (b3 - 0x80) * 0x40 + (b4 - 0x80)) :: cs)
        else none
      | _ => none
    else none

/-- Rust `String::from_utf8(bytes)` as an `Option`: `some` of the decoded string
when `bytes` is valid UTF-8, `none` (the `Err` case) otherwise. -/
def string_from_utf8 (bytes : List Nat) : Option String :=
  (utf8DecodeChars bytes).map (fun cs => String.mk cs)

/-- Rust `format!` with `{:?}` on a `bool`: the literal `true` / `false`. -/
def rustDebugBool (b : Bool) : String :=
  if b then "true" else "false"

/-- Rust `format!` with `{:?}` on `i32`/`i64`: the decimal literal (identical
to `Display` for integers). -/
def rustDebugInt (i : Int) : String :=
  toString i

/-- From `src/parquet.rs`: the uniform, displayable statistics record
`HumanFriendlyStats` (derives `Default`: all fields `None`). -/
structure HumanFriendlyStats where
  min : Option String
  max : Option String
  null_count : Option Int
  distinct_values : Option Int
deriving DecidableEq

/-- Rust derived `Default` for `HumanFriendlyStats`: every field absent. -/
def HumanFriendlyStats.default : HumanFriendlyStats :=
  { min := none, max := none, null_count := none, distinct_values := none }

/-- From `src/parquet.rs`: `impl<T: NativeType> From<&PrimitiveStatistics<T>> for
HumanFriendlyStats`, parameterized by the `{:?}` rendering of `T`.  Note the
source sets `distinct_values` to `None` (the statistics' own
`distinct_count` is ignored). -/
def HumanFriendlyStats.fromPrimitiveStatistics {T : Type} (debugFmt : T → String)
    (value : PrimitiveStatistics T) : HumanFriendlyStats :=
  { min := value.min_value.map (fun min_value => debugFmt min_value)
    max := value.max_value.map (fun max_value => debugFmt max_value)
    null_count := value.null_count
    distinct_values := none }

/-- From `src/parquet.rs`: `impl From<&BooleanStatistics> for HumanFriendlyStats`. -/
def HumanFriendlyStats.fromBooleanStatistics
    (value : BooleanStatistics) : HumanFriendlyStats :=
  { min := value.min_value.map (fun min_value => rustDebugBool min_value)
    max := value.max_value.map (fun max_value => rustDebugBool max_value)
    null_count := value.null_count
    distinct_values := value.distinct_count }

/-- From `src/parquet.rs`: `impl From<&BinaryStatistics> for HumanFriendlyStats`:
min/max decode their bytes with `String::from_utf8`, falling back to the
sentinel `"UNK"` via `unwrap_or`. -/
def HumanFriendlyStats.fromBinaryStatistics
    (value : BinaryStatistics) : HumanFriendlyStats :=
  { min := value.min_value.map (fun min_value => (string_from_utf8 min_value).getD "UNK")
    max := value.max_value.map (fun max_value => (string_from_utf8 max_value).getD "UNK")
    null_count := value.null_count
    distinct_values := value.distinct_count }

/-- From `src/parquet.rs`: `impl From<&FixedLenStatistics> for HumanFriendlyStats`,
same shape as the `BinaryStatistics` impl. -/
def HumanFriendlyStats.fromFixedLenStatistics
    (value : FixedLenStatistics) : HumanFriendlyStats :=
  { min := value.min_value.map (fun min_value => (string_from_utf8 min_value).getD "UNK")
    max := value.max_value.map (fun max_value => (string_from_utf8 max_value).getD "UNK")
    null_count := value.null_count
    distinct_values := value.distinct_count }

/-- From `src/parquet.rs`: `ColumnChunkMetaDataExt::stats`.  Each arm mirrors the
source's `self.statistics().map(|stats| stats.unwrap().as_any()
.downcast_ref::<..>().cloned()).and_then(|stats| stats.map(HumanFriendlyStats::from))
.unwrap_or_default()` chain (the inner `unwrap` of the already-validated
deserialization result is the identity in this model); the `Boolean` and
`Int96` arms return the default (all-absent) record outright. -/
def ColumnChunkMetaData.stats (self : ColumnChunkMetaData) : HumanFriendlyStats :=
  match self.physical_type with
  | .Boolean => HumanFriendlyStats.default
  | .Int32 =>
    ((self.statistics.map (fun stats => stats.downcastInt32)).bind
      (fun stats => stats.map (fun s => HumanFriendlyStats.fromPrimitiveStatistics rustDebugInt s))).getD
      HumanFriendlyStats.default
  | .Int64 =>
    ((self.statistics.map (fun stats => stats.downcastInt64)).bind
      (fun stats => stats.map (fun s => HumanFriendlyStats.fromPrimitiveStatistics rustDebugInt s))).getD
      HumanFriendlyStats.default
  | .Int96 => HumanFriendlyStats.default
  | .Float =>
    ((self.statistics.map (fun stats => stats.downcastFloat)).bind
      (fun stats => stats.map (fun s => HumanFriendlyStats.fromPrimitiveStatistics F32.rendered s))).getD
      HumanFriendlyStats.default
  | .Double =>
    ((self.statistics.map (fun stats => stats.downcastDouble)).bind
      (fun stats => stats.map (fun s => HumanFriendlyStats.fromPrimitiveStatistics F64.rendered s))).getD
      HumanFriendlyStats.default
  | .ByteArray =>
    ((self.statistics.map (fun stats => stats.downcastBinary)).bind
      (fun stats => stats.map (fun s => HumanFriendlyStats.fromBinaryStatistics s))).getD
      HumanFriendlyStats.default
  | .FixedLenByteArray _ =>
    ((self.statistics.map (fun stats => stats.downcastFixedLen)).bind
      (fun stats => stats.map (fun s => HumanFriendlyStats.fromFixedLenStatistics s))).getD
      HumanFriendlyStats.default

/-- From `src/views/column_chunk.rs`: the `ColumnChunkDetailView` record (name,
physical type, and normalized stats). -/
structure ColumnChunkDetailView where
  name : String
  physical_type : PhysicalType
  stats : HumanFriendlyStats
deriving DecidableEq

/-- From `src/views/column_chunk.rs`: `ColumnChunkDetailView::from`.  Each arm
mirrors `chunk.statistics().map(|stats| stats.unwrap()).and_then(|stats|
stats.as_any().downcast_ref::<..>().cloned()).map_or_else(HumanFriendlyStats::default,
|s| HumanFriendlyStats::from(&s))`; unlike `ColumnChunkMetaDataExt::stats`,
the `Boolean` arm downcasts to `BooleanStatistics`. -/
def ColumnChunkDetailView.from (chunk : ColumnChunkMetaData) : ColumnChunkDetailView :=
  { name := String.intercalate "." chunk.path_in_schema
    physical_type := chunk.physical_type
    stats :=
      match chunk.physical_type with
      | .Boolean =>
        match (chunk.statistics.map (fun stats => stats)).bind
            (fun stats => stats.downcastBoolean) with
        | some s => HumanFriendlyStats.fromBooleanStatistics s
        | none => HumanFriendlyStats.default
      | .Int32 =>
        match (chunk.statistics.map (fun stats => stats)).bind
            (fun stats => stats.downcastInt32) with
        | some s => HumanFriendlyStats.fromPrimitiveStatistics rustDebugInt s
        | none => HumanFriendlyStats.default
      | .Int64 =>
        match (chunk.statistics.map (fun stats => stats)).bind
            (fun stats => stats.downcastInt64) with
        | some s => HumanFriendlyStats.fromPrimitiveStatistics rustDebugInt s
        | none => HumanFriendlyStats.default
      | .Int96 => HumanFriendlyStats.default
      | .Float =>
        match (chunk.statistics.map (fun stats => stats)).bind
            (fun stats => stats.downcastFloat) with
        | some s => HumanFriendlyStats.fromPrimitiveStatistics F32.rendered s
        | none => HumanFriendlyStats.default
      | .Double =>
        match (chunk.statistics.map (fun stats => stats)).bind
            (fun stats => stats.downcastDouble) with
        | some s => HumanFriendlyStats.fromPrimitiveStatistics F64.rendered s
        | none => HumanFriendlyStats.default
      | .ByteArray =>
        match (chunk.statistics.map (fun stats => stats)).bind
            (fun stats => stats.downcastBinary) with
        | some s => HumanFriendlyStats.fromBinaryStatistics s
        | none => HumanFriendlyStats.default
      | .FixedLenByteArray _ =>
        match (chunk.statistics.map (fun stats => stats)).bind
            (fun stats => stats.downcastFixedLen) with
        | some s => HumanFriendlyStats.fromFixedLenStatistics s
        | none => HumanFriendlyStats.default }

/-- From `src/lib.rs`: `DetailMode` (the derived `Default` marks `RowGroup`). -/
inductive DetailMode where
  | RowGroup
  | ColumnChunk
deriving DecidableEq

/-- From `src/lib.rs`: `DetailMode::toggle`. -/
def DetailMode.toggle : DetailMode → DetailMode
  | .RowGroup => .ColumnChunk
  | .ColumnChunk => .RowGroup

/-- From `src/lib.rs`: `ViewState` — `Loading(path)` or
`Displaying(file_name, file_metadata, detail_mode, selected_row_group)`. -/
inductive ViewState where
  | Loading (path : String)
  | Displaying (file_name : String) (meta : FileMetaData)
      (detail_mode : DetailMode) (selected_row_group : Nat)
deriving DecidableEq

/-- From `src/lib.rs`: the `State` struct holding `view_state` and `exiting`. -/
structure State where
  view_state : ViewState
  exiting : Bool
deriving DecidableEq

/-- The `crossterm::event::KeyCode` values `App::handle_events` inspects;
every other key is collapsed into `OtherKey`. -/
inductive KeyCode where
  | Char (c : Char)
  | Down
  | Up
  | Tab
  | OtherKey
deriving DecidableEq

/-- A `crossterm` key event: its kind (`kind_is_press` is
`key_event.kind == KeyEventKind::Press`) and code. -/
structure KeyEvent where
  kind_is_press : Bool
  code : KeyCode
deriving DecidableEq

/-- A `crossterm` event: a key event, or any other event (matched by the
catch-all `_ => {}` arm of `App::handle_events`). -/
inductive Event where
  | Key (key_event : KeyEvent)
  | OtherEvent
deriving DecidableEq

/-- The `KeyCode::Down` branch of `App::handle_events`:
`if *selected < meta.row_groups.len() - 1 { *selected += 1 }` on a
`Displaying` state, no-op otherwise.  (`meta.row_groups.len() - 1` is usize
arithmetic; `Nat` subtraction agrees with it whenever the row-group list is
non-empty, which the loader guarantees.) -/
def ViewState.onDown : ViewState → ViewState
  | .Displaying file_name meta detail_mode selected =>
    .Displaying file_name meta detail_mode
      (if selected < meta.row_groups.length - 1 then selected + 1 else selected)
  | vs => vs

/-- The `KeyCode::Up` branch of `App::handle_events`:
`if *selected > 0 { *selected -= 1 }` on a `Displaying` state. -/
def ViewState.onUp : ViewState → ViewState
  | .Displaying file_name meta detail_mode selected =>
    .Displaying file_name meta detail_mode
      (if 0 < selected then selected - 1 else selected)
  | vs => vs

/-- The `KeyCode::Tab` branch of `App::handle_events`:
`*detail_mode = detail_mode.toggle()` on a `Displaying` state. -/
def ViewState.onTab : ViewState → ViewState
  | .Displaying file_name meta detail_mode selected =>
    .Displaying file_name meta detail_mode.toggle selected
  | vs => vs

/-- The body of `App::handle_events` for a received key event of
`KeyEventKind::Press`: the four sequential `if key_event.code == ..` blocks
of the source, in order (`q`/`Q` sets `exiting`; `Down`, `Up` and `Tab` each
rewrite `view_state`; the codes are mutually exclusive, and each block
touches a single field). -/
def State.handle_key (s : State) (key_event : KeyEvent) : State :=
  if key_event.kind_is_press then
    { view_state :=
        (if key_event.code = .Tab then ViewState.onTab else fun vs => vs)
          ((if key_event.code = .Up then ViewState.onUp else fun vs => vs)
            ((if key_event.code = .Down then ViewState.onDown else fun vs => vs)
              s.view_state))
      exiting :=
        if key_event.code = .Char 'q' ∨ key_event.code = .Char 'Q' then true
        else s.exiting }
  else s

/-- From `src/lib.rs`: `App::handle_events`, as the state transition applied to
one received event (the `event::poll` timeout returning no event leaves the
state untouched and is not modelled as an event). -/
def handle_events (s : State) (e : Event) : State :=
  match e with
  | .Key key_event => State.handle_key s key_event
  | .OtherEvent => s

/-- The `Displaying` state `App::render` installs when it finishes loading:
`DetailMode::default()` and `usize::default()` (selected row group 0),
with `exiting` untouched (false at startup). -/
def initialDisplaying (file_name : String) (meta : FileMetaData) : State :=
  { view_state := .Displaying file_name meta .RowGroup 0, exiting := false }

/-- The row-group detail lookup of `App::render`:
`&file_metadata.row_groups[*selected_row_group]`, as an `Option`
(`none` models both the `Loading` arm and an out-of-bounds panic). -/
def renderRowGroupDetail : ViewState → Option RowGroupMetaData
  | .Displaying _ meta _ selected => meta.row_groups[selected]?
  | .Loading _ => none

/-- The selected row-group index of a state, when it is displaying. -/
def ViewState.selectedRowGroup : ViewState → Option Nat
  | .Displaying _ _ _ selected => some selected
  | .Loading _ => none

/-- A model of a `parquet::data_type::ByteArray` / `FixedLenByteArray` value:
the program only calls `.to_string()` on it, so the value is represented by
that rendering. -/
structure ByteArrayValue where
  rendered : String

/-- The outcome of `read_records(10, ..)` on a typed column reader: `ok`
carries `(records_read, values_read, decoded values)` — the source binds the
first two as `complete` and `non_null` and the values land in `values_vec` —
and `error` is the `Err` case that the source's `.unwrap()` turns into a
panic. -/
inductive ReadRecords (α : Type) where
  | ok (complete : Nat) (non_null : Nat) (values : List α)
  | error (e : String)

/-- The `parquet::column::reader::ColumnReader` enum: one typed reader per physical
type, each carrying the outcome of the single `read_records(10, ..)` call
`sample_column` performs on it. -/
inductive ColumnReader where
  | BoolColumnReader (r : ReadRecords Bool)
  | Int32ColumnReader (r : ReadRecords Int)
  | Int64ColumnReader (r : ReadRecords Int)
  | Int96ColumnReader
  | FloatColumnReader (r : ReadRecords F32)
  | DoubleColumnReader (r : ReadRecords F64)
  | ByteArrayColumnReader (r : ReadRecords ByteArrayValue)
  | FixedLenByteArrayColumnReader (r : ReadRecords ByteArrayValue)

/-- A model of the `ChunkReader` input of `sample_column`, by the outcome of
parsing it: `SerializedFileReader::new` either fails (`error`) or yields the
row groups, each a list of per-column readers (`get_row_group(i)` /
`get_column_reader(j)` err — and the source's `.unwrap()`s panic — exactly
when an index is out of range). -/
structure ChunkReaderModel where
  parse_result : Except String (List (List ColumnReader))

/-- Rust `{:?}` rendering of one `char` inside a `String` debug literal: the
escapes for the characters this program can actually produce (`to_string` of
bool/int/float values never yields quotes, backslashes or control
characters, so the identity arm is the one exercised). -/
def rustDebugChar (c : Char) : String :=
  if c = '"' then "\\\""
  else if c = '\\' then "\\\\"
  else if c = '\n' then "\\n"
  else if c = '\r' then "\\r"
  else if c = '\t' then "\\t"
  else String.mk [c]

/-- Rust `{:?}` rendering of a `String`: quoted and escaped. -/
def rustDebugStr (s : String) : String :=
  "\"" ++ String.join (s.data.map rustDebugChar) ++ "\"" 

/-- Rust `{:?}` rendering of a `Vec<String>`: `[..]` of the debug-rendered
elements, comma-separated. -/
def rustDebugStringList (l : List String) : String :=
  "[" ++ String.intercalate ", " (l.map rustDebugStr) ++ "]"

/-- The `format!("count: {}, non-null: {} sample: {:?}", complete, non_null,
&sample)` string each successful arm of `sample_column` returns. -/
def sampleFormat (complete non_null : Nat) (sample : List String) : String :=
  "count: " ++ toString complete ++ ", non-null: " ++ toString non_null ++
    " sample: " ++ rustDebugStringList sample

/-- One typed arm of `sample_column`: unwrap the `read_records` outcome
(`none` models the panic of `.unwrap()` on `Err`), take the first 10 decoded
values, render each with `to_string`, and format. -/
def sampleArm {α : Type} (toStr : α → String) : ReadRecords α → Option String
  | .ok complete non_null values =>
    some (sampleFormat complete non_null ((values.take 10).map toStr))
  | .error _ => none

/-- From `src/parquet.rs`: `sample_column(chunk_reader, row_group, column_chunk)`.
The source returns `String` and `.unwrap()`s every fallible step; `none`
models those panics.  The `Int96ColumnReader` arm returns a fixed message
without reading anything. -/
def sample_column (chunk_reader : ChunkReaderModel)
    (row_group : Nat) (column_chunk : Nat) : Option String :=
  match chunk_reader.parse_result with
  | .error _ => none
  | .ok row_groups =>
    match row_groups[row_group]? with
    | none => none
    | some columns =>
      match columns[column_chunk]? with
      | none => none
      | some column_reader =>
        match column_reader with
        | .BoolColumnReader r => sampleArm (fun b => if b then "true" else "false") r
        | .Int32ColumnReader r => sampleArm (fun i => toString i) r
        | .Int64ColumnReader r => sampleArm (fun i => toString i) r
        | .Int96ColumnReader => some "INT96 sampling not supported"
        | .FloatColumnReader r => sampleArm F32.rendered r
        | .DoubleColumnReader r => sampleArm F64.rendered r
        | .ByteArrayColumnReader r => sampleArm ByteArrayValue.rendered r
        | .FixedLenByteArrayColumnReader r => sampleArm ByteArrayValue.rendered r

/-- Modelled from the spec: the three-pane `active_pane` enum
(`crate::ActivePane`) that `src/views/row_group_browser.rs`,
`src/views/column_chunk_browser.rs` and `src/views/column_chunk.rs` reference
but whose defining module is not among the source files; variants and their
cyclic order follow spec §3 "SelectionState". -/
inductive ActivePane where
  | RowGroupBrowser
  | ColumnBrowser
  | ColumnChunkDetail
deriving DecidableEq

/-- Modelled from the spec: the `SelectionState` cursor (spec §3) backing the
`app.row_group_view_state` / `app.column_chunk_view_state` selections that the
view files read; its defining module is not among the source files. -/
structure SelectionState where
  active_pane : ActivePane
  row_group_index : Nat
  column_index : Nat
deriving DecidableEq

/-- The column-list length of the currently selected row group, recomputed
from the metadata at the time of an operation (spec §4.1). -/
def currentColumnsLen (meta : FileMetaData) (st : SelectionState) : Nat :=
  ((meta.row_groups[st.row_group_index]?).map (fun rg => rg.columns.length)).getD 0

/-- Modelled from the spec: `move_next` of the NavigationController
(spec §4.1), absent from the source files.  Within the active pane's list the
index advances by one, wrapping to 0 at the last position; advancing
`row_group_index` additionally resets `column_index` to 0; `ColumnChunkDetail`
movement is a no-op. -/
def move_next (st : SelectionState) (meta : FileMetaData) : SelectionState :=
  match st.active_pane with
  | .RowGroupBrowser =>
    { st with
      row_group_index := (st.row_group_index + 1) % meta.row_groups.length
      column_index := 0 }
  | .ColumnBrowser =>
    { st with column_index := (st.column_index + 1) % currentColumnsLen meta st }
  | .ColumnChunkDetail => st

/-- Modelled from the spec: `move_prev` of the NavigationController
(spec §4.1), symmetric to `move_next`, wrapping to the last index at 0, with
the same reset-on-row-group-change rule. -/
def move_prev (st : SelectionState) (meta : FileMetaData) : SelectionState :=
  match st.active_pane with
  | .RowGroupBrowser =>
    { st with
      row_group_index :=
        if st.row_group_index = 0 then meta.row_groups.length - 1
        else st.row_group_index - 1
      column_index := 0 }
  | .ColumnBrowser =>
    { st with
      column_index :=
        if st.column_index = 0 then currentColumnsLen meta st - 1
        else st.column_index - 1 }
  | .ColumnChunkDetail => st

/-- Whether a stored statistics value has the shape the given declared
physical type's dispatch arm downcasts to (for `Boolean` the shape the
view's arm downcasts to; the `Int96` arm performs no downcast). -/
def Statistics.matchesPhysicalType : PhysicalType → Statistics → Bool
  | .Boolean, .boolean _ => true
  | .Int32, .int32 _ => true
  | .Int64, .int64 _ => true
  | .Float, .float _ => true
  | .Double, .double _ => true
  | .ByteArray, .binary _ => true
  | .FixedLenByteArray _, .fixedLen _ => true
  | _, _ => false

/-- A one-column row group used to build concrete metadata instances. -/
def exRowGroup : RowGroupMetaData :=
  { columns := [{ path_in_schema := ["col"], physical_type := .Int32, statistics := none }]
    total_byte_size := 100 }

/-- Concrete metadata with a single row group. -/
def exMeta1 : FileMetaData := { num_rows := 5, row_groups := [exRowGroup] }

/-- Concrete metadata with two row groups. -/
def exMeta2 : FileMetaData := { num_rows := 10, row_groups := [exRowGroup, exRowGroup] }

/-- A pressed arrow-down key event. -/
def evDown : Event := .Key { kind_is_press := true, code := .Down }

/-- A pressed arrow-up key event. -/
def evUp : Event := .Key { kind_is_press := true, code := .Up }

/-- A pressed Tab key event. -/
def evTab : Event := .Key { kind_is_press := true, code := .Tab }

/-- A column chunk declared `Float` with absent statistics. -/
def exAbsentChunk : ColumnChunkMetaData :=
  { path_in_schema := ["a"], physical_type := .Float, statistics := none }

/-- A column chunk declared `Int32` whose stored statistics have `i64` shape
(a declared-type / stored-shape mismatch). -/
def exMismatchChunk : ColumnChunkMetaData :=
  { path_in_schema := ["b"], physical_type := .Int32
    statistics := some (.int64 { null_count := some 3, distinct_count := none
                                 min_value := some 1, max_value := some 9 }) }

/-- A column chunk declared `Int96` carrying (ignored) boolean-shaped
statistics. -/
def exInt96Chunk : ColumnChunkMetaData :=
  { path_in_schema := ["c"], physical_type := .Int96
    statistics := some (.boolean { null_count := some 0, distinct_count := none
                                   min_value := some true, max_value := some true }) }

/-- Concrete boolean statistics with every field present. -/
def exBoolStats : BooleanStatistics :=
  { null_count := some 3, distinct_count := some 7
    min_value := some true, max_value := some false }

/-- A Boolean column chunk carrying `exBoolStats`. -/
def exBoolChunk : ColumnChunkMetaData :=
  { path_in_schema := ["flag"], physical_type := .Boolean
    statistics := some (.boolean exBoolStats) }

/-- Concrete binary statistics: the minimum's bytes are invalid UTF-8
(a `0xC3` lead byte followed by a non-continuation byte), the maximum's
bytes decode to `"hi"`. -/
def exBinStats : BinaryStatistics :=
  { null_count := some 1, distinct_count := some 2
    min_value := some [195, 40], max_value := some [104, 105] }

/-- Concrete fixed-length statistics with invalid-UTF-8 min bytes. -/
def exFixedStats : FixedLenStatistics :=
  { null_count := none, distinct_count := none
    min_value := some [195, 40], max_value := some [195, 40] }

/-- The `ViewState` part of a `State` satisfying the displaying invariant for
fixed metadata: it displays exactly that metadata and its selected row-group
index is in bounds. -/
def ViewInv (meta : FileMetaData) (vs : ViewState) : Prop :=
  ∃ file_name d sel, vs = ViewState.Displaying file_name meta d sel ∧
    sel < meta.row_groups.length

/-- The displaying invariant on full states. -/
def StateInv (meta : FileMetaData) (s : State) : Prop :=
  ViewInv meta s.view_state

/-- A concrete selection with the row-group browser active and a stale
column index. -/
def exSel : SelectionState :=
  { active_pane := .RowGroupBrowser, row_group_index := 0, column_index := 5 }

/-- C3: the statistics projection is total: absent raw statistics project to
the all-absent snapshot; a mismatch between the declared physical type and
the stored statistics shape degrades to the all-absent snapshot rather than
an error; and an `Int96` chunk projects to the all-absent snapshot regardless
of its statistics.  (Being a Lean function, `ColumnChunkMetaData.stats`
returns a `HumanFriendlyStats` on every input by construction.) -/
theorem c3_stats_projection_total (c : ColumnChunkMetaData) :
    (c.statistics = none → c.stats = HumanFriendlyStats.default) ∧
    (∀ st : Statistics, c.statistics = some st →
      Statistics.matchesPhysicalType c.physical_type st = false →
      c.stats = HumanFriendlyStats.default) ∧
    (c.physical_type = PhysicalType.Int96 → c.stats = HumanFriendlyStats.default) := by
  obtain ⟨path, pt, stOpt⟩ := c
  refine ⟨?_, ?_, ?_⟩
  · intro h
    simp only at h
    subst h
    cases pt <;> rfl
  · intro st h hm
    simp only at h
    subst h
    simp only at hm
    cases pt <;> cases st <;> first | rfl | exact Bool.noConfusion hm
  · intro h
    simp only at h
    subst h
    rfl

/-- C3 witness: the three implications discharged at concrete chunks. -/
theorem c3_stats_projection_total_witness :
    (exAbsentChunk.statistics = none ∧
      exAbsentChunk.stats = HumanFriendlyStats.default) ∧
    ((∃ st, exMismatchChunk.statistics = some st ∧
        Statistics.matchesPhysicalType exMismatchChunk.physical_type st = false) ∧
      exMismatchChunk.stats = HumanFriendlyStats.default) ∧
    (exInt96Chunk.physical_type = PhysicalType.Int96 ∧
      exInt96Chunk.stats = HumanFriendlyStats.default) :=
  ⟨⟨rfl, (c3_stats_projection_total exAbsentChunk).1 rfl⟩,
   ⟨⟨_, rfl, rfl⟩, (c3_stats_projection_total exMismatchChunk).2.1 _ rfl rfl⟩,
   ⟨rfl, (c3_stats_projection_total exInt96Chunk).2.2 rfl⟩⟩

/-- C5 counterexample: for a Boolean chunk whose statistics carry
`min = true`, `max = false`, `null_count = 3` and `distinct_count = 7`, the
detail-view projection yields `distinct_values = some 7` — not the claimed
always-absent distinct count — and the `ColumnChunkMetaDataExt::stats`
projection yields `min = none` despite the present minimum. -/
theorem c5_counterexample :
    (ColumnChunkDetailView.from exBoolChunk).stats.distinct_values = some 7 ∧
    exBoolChunk.stats.min = none := ⟨rfl, rfl⟩

/-- C5 (amended): projecting a Boolean chunk via `ColumnChunkDetailView::from`
yields min and max as debug-formatted boolean literals when the stored
`BooleanStatistics` carries them (absent when the statistics are absent),
`null_count` from the statistics, and `distinct_count` likewise taken from
the statistics (not always absent); `ColumnChunkMetaDataExt::stats` instead
returns the all-absent snapshot for every Boolean chunk. -/
theorem c5_boolean_projection (path : List String) (bs : BooleanStatistics) :
    ((ColumnChunkDetailView.from
        { path_in_schema := path, physical_type := .Boolean
          statistics := some (.boolean bs) }).stats =
      { min := bs.min_value.map rustDebugBool
        max := bs.max_value.map rustDebugBool
        null_count := bs.null_count
        distinct_values := bs.distinct_count }) ∧
    ((ColumnChunkDetailView.from
        { path_in_schema := path, physical_type := .Boolean
          statistics := none }).stats = HumanFriendlyStats.default) ∧
    (∀ stOpt : Option Statistics,
      ColumnChunkMetaData.stats
          { path_in_schema := path, physical_type := .Boolean, statistics := stOpt } =
        HumanFriendlyStats.default) :=
  ⟨rfl, rfl, fun _ => rfl⟩

/-- C6: Int96 is uniformly unsupported without error: both statistics
dispatches return the all-absent snapshot for an `Int96` chunk regardless of
its stored statistics, and `sample_column` on an `Int96` column reader
returns the fixed not-supported message instead of values. -/
theorem c6_int96_unsupported :
    (∀ (path : List String) (stOpt : Option Statistics),
      ColumnChunkMetaData.stats
          { path_in_schema := path, physical_type := .Int96, statistics := stOpt } =
        HumanFriendlyStats.default ∧
      (ColumnChunkDetailView.from
          { path_in_schema := path, physical_type := .Int96, statistics := stOpt }).stats =
        HumanFriendlyStats.default) ∧
    (∀ (rgs : List (List ColumnReader)) (rg col : Nat) (cols : List ColumnReader),
      rgs[rg]? = some cols →
      cols[col]? = some ColumnReader.Int96ColumnReader →
      sample_column { parse_result := Except.ok rgs } rg col =
        some "INT96 sampling not supported") := by
  refine ⟨fun path stOpt => ⟨rfl, rfl⟩, ?_⟩
  intro rgs rg col cols h1 h2
  simp only [sample_column, h1, h2]

/-- C6 witness: the sampling implication discharged at a concrete one-column
file, together with the statistics part at a concrete `Int96` chunk. -/
theorem c6_int96_unsupported_witness :
    exInt96Chunk.stats = HumanFriendlyStats.default ∧
    sample_column { parse_result := Except.ok [[ColumnReader.Int96ColumnReader]] } 0 0 =
      some "INT96 sampling not supported" :=
  ⟨((c6_int96_unsupported.1 ["c"] exInt96Chunk.statistics).1),
   c6_int96_unsupported.2 [[ColumnReader.Int96ColumnReader]] 0 0
     [ColumnReader.Int96ColumnReader] rfl rfl⟩

/-- C9: for `ByteArray` and `FixedLenByteArray` statistics, a stored minimum
or maximum byte string that is valid UTF-8 projects to its decoded string,
and one that is not valid UTF-8 projects to the sentinel `"UNK"` rather than
failing. -/
theorem c9_bytearray_utf8_fallback (bytes : List Nat)
    (b : BinaryStatistics) (f : FixedLenStatistics) :
    (∀ s : String, string_from_utf8 bytes = some s →
      (b.min_value = some bytes → (HumanFriendlyStats.fromBinaryStatistics b).min = some s) ∧
      (b.max_value = some bytes → (HumanFriendlyStats.fromBinaryStatistics b).max = some s) ∧
      (f.min_value = some bytes → (HumanFriendlyStats.fromFixedLenStatistics f).min = some s) ∧
      (f.max_value = some bytes → (HumanFriendlyStats.fromFixedLenStatistics f).max = some s)) ∧
    (string_from_utf8 bytes = none →
      (b.min_value = some bytes → (HumanFriendlyStats.fromBinaryStatistics b).min = some "UNK") ∧
      (b.max_value = some bytes → (HumanFriendlyStats.fromBinaryStatistics b).max = some "UNK") ∧
      (f.min_value = some bytes → (HumanFriendlyStats.fromFixedLenStatistics f).min = some "UNK") ∧
      (f.max_value = some bytes → (HumanFriendlyStats.fromFixedLenStatistics f).max = some "UNK")) := by
  constructor
  · intro s hs
    refine ⟨fun h => ?_, fun h => ?_, fun h => ?_, fun h => ?_⟩ <;>
      simp [HumanFriendlyStats.fromBinaryStatistics,
        HumanFriendlyStats.fromFixedLenStatistics, h, hs]
  · intro hn
    refine ⟨fun h => ?_, fun h => ?_, fun h => ?_, fun h => ?_⟩ <;>
      simp [HumanFriendlyStats.fromBinaryStatistics,
        HumanFriendlyStats.fromFixedLenStatistics, h, hn]

/-- C9 witness: the invalid byte string `[195, 40]` projects to `"UNK"` for
both binary and fixed-length statistics, and the valid byte string
`[104, 105]` projects to its decoded string `"hi"`. -/
theorem c9_bytearray_utf8_fallback_witness :
    string_from_utf8 [195, 40] = none ∧
    (HumanFriendlyStats.fromBinaryStatistics exBinStats).min = some "UNK" ∧
    (HumanFriendlyStats.fromFixedLenStatistics exFixedStats).min = some "UNK" ∧
    string_from_utf8 [104, 105] = some "hi" ∧
    (HumanFriendlyStats.fromBinaryStatistics exBinStats).max = some "hi" :=
  ⟨by decide,
   ((c9_bytearray_utf8_fallback [195, 40] exBinStats exFixedStats).2 (by decide)).1 rfl,
   ((c9_bytearray_utf8_fallback [195, 40] exBinStats exFixedStats).2 (by decide)).2.2.1 rfl,
   by decide,
   ((c9_bytearray_utf8_fallback [104, 105] exBinStats exFixedStats).1 "hi" (by decide)).2.1 rfl⟩

/-- C10: the two per-physical-type statistics dispatches agree on every
column chunk whose physical type is not `Boolean`; for a Boolean chunk with
present boolean-shaped statistics, `ColumnChunkMetaDataExt::stats` returns
the all-absent default while `ColumnChunkDetailView::from` extracts the
fields from the `BooleanStatistics`. -/
theorem c10_dispatch_equivalence :
    (∀ c : ColumnChunkMetaData, c.physical_type ≠ PhysicalType.Boolean →
      c.stats = (ColumnChunkDetailView.from c).stats) ∧
    (∀ (path : List String) (bs : BooleanStatistics),
      ColumnChunkMetaData.stats
          { path_in_schema := path, physical_type := .Boolean
            statistics := some (.boolean bs) } =
        HumanFriendlyStats.default ∧
      (ColumnChunkDetailView.from
          { path_in_schema := path, physical_type := .Boolean
            statistics := some (.boolean bs) }).stats =
        HumanFriendlyStats.fromBooleanStatistics bs) := by
  constructor
  · rintro ⟨path, pt, stOpt⟩ h
    simp only [ne_eq] at h
    cases pt <;>
      first
        | exact absurd rfl h
        | (cases stOpt with
            | none => rfl
            | some st => cases st <;> rfl)
  · intro path bs
    exact ⟨rfl, rfl⟩

/-- C10 witness: the agreement implication discharged at a concrete
non-Boolean chunk (declared `Int32`, `i64`-shaped statistics), plus the
Boolean divergence at a concrete Boolean chunk. -/
theorem c10_dispatch_equivalence_witness :
    (exMismatchChunk.physical_type ≠ PhysicalType.Boolean ∧
      exMismatchChunk.stats = (ColumnChunkDetailView.from exMismatchChunk).stats) ∧
    (exBoolChunk.stats = HumanFriendlyStats.default ∧
      (ColumnChunkDetailView.from exBoolChunk).stats =
        HumanFriendlyStats.fromBooleanStatistics exBoolStats) :=
  ⟨⟨by decide, c10_dispatch_equivalence.1 exMismatchChunk (by decide)⟩,
   c10_dispatch_equivalence.2 ["flag"] exBoolStats⟩

/-- A received `Down` key press rewrites only `view_state`, by `onDown`. -/
theorem handle_events_down (s : State) :
    handle_events s evDown = { s with view_state := s.view_state.onDown } := rfl

/-- A received `Up` key press rewrites only `view_state`, by `onUp`. -/
theorem handle_events_up (s : State) :
    handle_events s evUp = { s with view_state := s.view_state.onUp } := rfl

/-- A received `Tab` key press rewrites only `view_state`, by `onTab`. -/
theorem handle_events_tab (s : State) :
    handle_events s evTab = { s with view_state := s.view_state.onTab } := rfl

/-- C1 counterexample: with 2 row groups and the selection at the last index
(1), a move-next (`Down`) leaves the selection at 1 — it does not wrap to 0
as the claim requires. -/
theorem c1_counterexample :
    exMeta2.row_groups.length = 2 ∧
    (handle_events
        { view_state := ViewState.Displaying "ex" exMeta2 DetailMode.RowGroup 1
          exiting := false }
        evDown).view_state.selectedRowGroup = some 1 ∧
    some 1 ≠ some (0 : Nat) :=
  ⟨rfl, rfl, by decide⟩

/-- C1 (amended): navigation saturates rather than wraps.  From any in-bounds
index, applying move-next (`Down`) `k` times yields `min (sel + k) (n - 1)`
— never returning to the start; move-next at the last index and move-prev
(`Up`) at index 0 are no-ops; and move-prev inverts move-next exactly when
the move did not saturate. -/
theorem c1_saturating_navigation (file_name : String) (meta : FileMetaData)
    (d : DetailMode) (ex : Bool) (sel k : Nat)
    (hsel : sel < meta.row_groups.length) :
    ((List.replicate k evDown).foldl handle_events
        { view_state := ViewState.Displaying file_name meta d sel, exiting := ex } =
      { view_state := ViewState.Displaying file_name meta d
          (min (sel + k) (meta.row_groups.length - 1))
        exiting := ex }) ∧
    (sel + 1 = meta.row_groups.length →
      handle_events
          { view_state := ViewState.Displaying file_name meta d sel, exiting := ex }
          evDown =
        { view_state := ViewState.Displaying file_name meta d sel, exiting := ex }) ∧
    (handle_events
        { view_state := ViewState.Displaying file_name meta d 0, exiting := ex }
        evUp =
      { view_state := ViewState.Displaying file_name meta d 0, exiting := ex }) ∧
    (sel + 1 < meta.row_groups.length →
      handle_events
          (handle_events
            { view_state := ViewState.Displaying file_name meta d sel, exiting := ex }
            evDown)
          evUp =
        { view_state := ViewState.Displaying file_name meta d sel, exiting := ex }) := by
  refine ⟨?_, ?_, ?_, ?_⟩
  · induction k generalizing sel with
    | zero =>
      simp only [List.replicate, List.foldl_nil, Nat.add_zero]
      rw [Nat.min_eq_left (by omega)]
    | succ n ih =>
      rw [List.replicate_succ, List.foldl_cons, handle_events_down]
      simp only [ViewState.onDown]
      by_cases h : sel < meta.row_groups.length - 1
      · rw [if_pos h, ih (sel + 1) (by omega)]
        have harith : sel + 1 + n = sel + (n + 1) := by omega
        rw [harith]
      · rw [if_neg h, ih sel hsel]
        have h1 : min (sel + n) (meta.row_groups.length - 1) =
            meta.row_groups.length - 1 := Nat.min_eq_right (by omega)
        have h2 : min (sel + (n + 1)) (meta.row_groups.length - 1) =
            meta.row_groups.length - 1 := Nat.min_eq_right (by omega)
        rw [h1, h2]
  · intro h
    rw [handle_events_down]
    simp only [ViewState.onDown]
    rw [if_neg (by omega)]
  · rw [handle_events_up]
    simp only [ViewState.onUp]
    rfl
  · intro h
    rw [handle_events_down]
    simp only [ViewState.onDown]
    rw [if_pos (by omega), handle_events_up]
    simp only [ViewState.onUp]
    rw [if_pos (by omega)]
    simp

/-- C1 (amended) witness: with 2 row groups, three move-nexts from index 0
end at `min (0 + 3) (2 - 1) = 1`, not back at 0. -/
theorem c1_saturating_navigation_witness :
    0 < exMeta2.row_groups.length ∧
    (List.replicate 3 evDown).foldl handle_events
        { view_state := ViewState.Displaying "ex" exMeta2 DetailMode.RowGroup 0
          exiting := false } =
      { view_state := ViewState.Displaying "ex" exMeta2 DetailMode.RowGroup
          (min (0 + 3) (exMeta2.row_groups.length - 1))
        exiting := false } :=
  ⟨by decide,
   (c1_saturating_navigation "ex" exMeta2 DetailMode.RowGroup false 0 3 (by decide)).1⟩

/-- C4 counterexample: the toggle is a two-element cycle, so three Tab
presses (and three `DetailMode::toggle` applications) do not return to the
starting mode, refuting the claimed three-step pane cycle. -/
theorem c4_counterexample :
    (handle_events (handle_events (handle_events
        { view_state := ViewState.Displaying "ex" exMeta2 DetailMode.RowGroup 0
          exiting := false }
        evTab) evTab) evTab).view_state ≠
      ViewState.Displaying "ex" exMeta2 DetailMode.RowGroup 0 ∧
    DetailMode.RowGroup.toggle.toggle.toggle ≠ DetailMode.RowGroup := by
  exact ⟨by decide, by decide⟩

/-- C4 (amended): the Tab toggle advances the detail mode through the fixed
two-step cycle `RowGroup → ColumnChunk → RowGroup` without touching the
selected row-group index (or the exit flag); applied 2 times from any
starting mode it returns to that mode. -/
theorem c4_toggle_two_cycle :
    (∀ d : DetailMode, d.toggle.toggle = d) ∧
    (∀ (file_name : String) (meta : FileMetaData) (d : DetailMode)
        (sel : Nat) (ex : Bool),
      handle_events
          { view_state := ViewState.Displaying file_name meta d sel, exiting := ex }
          evTab =
        { view_state := ViewState.Displaying file_name meta d.toggle sel
          exiting := ex }) :=
  ⟨fun d => by cases d <;> rfl, fun _ _ _ _ _ => rfl⟩

/-- `onDown` preserves the displaying invariant. -/
theorem ViewInv.onDown {meta : FileMetaData} {vs : ViewState}
    (h : ViewInv meta vs) : ViewInv meta vs.onDown := by
  obtain ⟨file_name, d, sel, rfl, hlt⟩ := h
  refine ⟨file_name, d, _, rfl, ?_⟩
  split <;> omega

/-- `onUp` preserves the displaying invariant. -/
theorem ViewInv.onUp {meta : FileMetaData} {vs : ViewState}
    (h : ViewInv meta vs) : ViewInv meta vs.onUp := by
  obtain ⟨file_name, d, sel, rfl, hlt⟩ := h
  refine ⟨file_name, d, _, rfl, ?_⟩
  split <;> omega

/-- `onTab` preserves the displaying invariant. -/
theorem ViewInv.onTab {meta : FileMetaData} {vs : ViewState}
    (h : ViewInv meta vs) : ViewInv meta vs.onTab := by
  obtain ⟨file_name, d, sel, rfl, hlt⟩ := h
  exact ⟨file_name, d.toggle, sel, rfl, hlt⟩

/-- Every event handled by `App::handle_events` leaves `view_state` either
untouched or rewritten by exactly one of `onDown`, `onUp`, `onTab`. -/
theorem handle_events_view_state_cases (s : State) (e : Event) :
    (handle_events s e).view_state = s.view_state ∨
    (handle_events s e).view_state = s.view_state.onDown ∨
    (handle_events s e).view_state = s.view_state.onUp ∨
    (handle_events s e).view_state = s.view_state.onTab := by
  cases e with
  | OtherEvent => exact Or.inl rfl
  | Key key_event =>
    obtain ⟨kind, code⟩ := key_event
    cases kind with
    | false => exact Or.inl rfl
    | true =>
      cases code with
      | Char c => exact Or.inl rfl
      | Down => exact Or.inr (Or.inl rfl)
      | Up => exact Or.inr (Or.inr (Or.inl rfl))
      | Tab => exact Or.inr (Or.inr (Or.inr rfl))
      | OtherKey => exact Or.inl rfl

/-- One step of `App::handle_events` preserves the displaying invariant. -/
theorem StateInv.step {meta : FileMetaData} {s : State} (e : Event)
    (h : StateInv meta s) : StateInv meta (handle_events s e) := by
  rcases handle_events_view_state_cases s e with hc | hc | hc | hc <;>
    unfold StateInv <;> rw [hc]
  · exact h
  · exact h.onDown
  · exact h.onUp
  · exact h.onTab

/-- Any sequence of events preserves the displaying invariant. -/
theorem StateInv.foldl {meta : FileMetaData} (events : List Event) :
    ∀ s : State, StateInv meta s → StateInv meta (events.foldl handle_events s) := by
  induction events with
  | nil => exact fun s h => h
  | cons e es ih => exact fun s h => ih _ (h.step e)

/-- C8: assuming the loaded metadata has at least one row group, every
sequence of input events starting from the freshly loaded `Displaying` state
(selected index 0) keeps the selected row-group index strictly below the
number of row groups, so the render path's `row_groups[selected]` lookup is
always in bounds. -/
theorem c8_selection_in_bounds (file_name : String) (meta : FileMetaData)
    (events : List Event) (h : 0 < meta.row_groups.length) :
    (renderRowGroupDetail
        ((events.foldl handle_events (initialDisplaying file_name meta)).view_state)).isSome ∧
    (∃ n d sel,
      (events.foldl handle_events (initialDisplaying file_name meta)).view_state =
        ViewState.Displaying n meta d sel ∧ sel < meta.row_groups.length) := by
  have hinv : StateInv meta (events.foldl handle_events (initialDisplaying file_name meta)) :=
    StateInv.foldl events _ ⟨file_name, .RowGroup, 0, rfl, h⟩
  obtain ⟨n, d, sel, heq, hlt⟩ := hinv
  refine ⟨?_, n, d, sel, heq, hlt⟩
  rw [heq]
  simp [renderRowGroupDetail, List.getElem?_eq_getElem hlt]

/-- C8 witness: a concrete event sequence over single-row-group metadata,
with the non-emptiness hypothesis discharged. -/
theorem c8_selection_in_bounds_witness :
    0 < exMeta1.row_groups.length ∧
    (renderRowGroupDetail
        (([evDown, evTab, evUp, Event.OtherEvent].foldl handle_events
            (initialDisplaying "w" exMeta1)).view_state)).isSome :=
  ⟨by decide,
   (c8_selection_in_bounds "w" exMeta1 [evDown, evTab, evUp, Event.OtherEvent]
     (by decide)).1⟩

/-- C2: on the (spec-modelled) three-pane controller, whenever a
`move_next`/`move_prev` in the row-group browser changes the selected
row-group index, the column index is 0 in the resulting state (before any
later read); moves in the column browser leave the row-group index
untouched. -/
theorem c2_row_group_switch_resets_column (st : SelectionState) (meta : FileMetaData) :
    (st.active_pane = ActivePane.RowGroupBrowser →
      ((move_next st meta).row_group_index ≠ st.row_group_index →
        (move_next st meta).column_index = 0) ∧
      ((move_prev st meta).row_group_index ≠ st.row_group_index →
        (move_prev st meta).column_index = 0)) ∧
    (st.active_pane = ActivePane.ColumnBrowser →
      (move_next st meta).row_group_index = st.row_group_index ∧
      (move_prev st meta).row_group_index = st.row_group_index) := by
  obtain ⟨pane, rg, col⟩ := st
  cases pane with
  | RowGroupBrowser =>
    refine ⟨fun _ => ⟨fun _ => rfl, fun _ => rfl⟩, fun h => ?_⟩
    simp at h
  | ColumnBrowser =>
    refine ⟨fun h => ?_, fun _ => ⟨rfl, rfl⟩⟩
    simp at h
  | ColumnChunkDetail =>
    refine ⟨fun h => ?_, fun h2 => ?_⟩
    · simp at h
    · simp at h2

/-- C2 witness: with two row groups and a stale column index 5, a
row-group-browser `move_next` changes the row-group index and the column
index comes out 0. -/
theorem c2_row_group_switch_resets_column_witness :
    exSel.active_pane = ActivePane.RowGroupBrowser ∧
    (move_next exSel exMeta2).row_group_index ≠ exSel.row_group_index ∧
    (move_next exSel exMeta2).column_index = 0 :=
  ⟨rfl, by decide,
   ((c2_row_group_switch_resets_column exSel exMeta2).1 rfl).1 (by decide)⟩

/-- C7 counterexample: at a concrete file whose selected `Int32` chunk's
`read_records` fails, `sample_column` — whose return type is a plain
`String` — panics on the `.unwrap()` (modelled `none`): no error result is
surfaced to the caller, refuting the claimed best-effort error propagation. -/
theorem c7_counterexample :
    sample_column
        { parse_result :=
            Except.ok [[ColumnReader.Int32ColumnReader (ReadRecords.error "decode failed")]] }
        0 0 = none := rfl

/-- C7 (amended): on a successful read, `sample_column` decodes up to 10
values of the chunk's native type and returns the formatted string
`count: .., non-null: .. sample: [..]`, with one arm per physical type
(Boolean, Int32, Int64, Float, Double, ByteArray, FixedLenByteArray; the
rendered sample holds at most 10 values; Int96 is the fixed-message arm); a
decode failure in any of those arms, a failing row-group or column lookup,
or a failing open, panics via `.unwrap()` (modelled `none`) instead of
returning an error result to the caller. -/
theorem c7_sample_format :
    (∀ (rgs : List (List ColumnReader)) (rg col : Nat) (cols : List ColumnReader)
        (complete non_null : Nat),
      rgs[rg]? = some cols →
      ((∀ values : List Bool,
        cols[col]? = some (ColumnReader.BoolColumnReader
          (ReadRecords.ok complete non_null values)) →
        sample_column { parse_result := Except.ok rgs } rg col =
          some (sampleFormat complete non_null
            ((values.take 10).map (fun b => if b then "true" else "false"))) ∧
        ((values.take 10).map (fun b => if b then "true" else "false")).length ≤ 10) ∧
      (∀ values : List Int,
        cols[col]? = some (ColumnReader.Int32ColumnReader
          (ReadRecords.ok complete non_null values)) →
        sample_column { parse_result := Except.ok rgs } rg col =
          some (sampleFormat complete non_null
            ((values.take 10).map (fun i => toString i))) ∧
        ((values.take 10).map (fun i => toString i)).length ≤ 10) ∧
      (∀ values : List Int,
        cols[col]? = some (ColumnReader.Int64ColumnReader
          (ReadRecords.ok complete non_null values)) →
        sample_column { parse_result := Except.ok rgs } rg col =
          some (sampleFormat complete non_null
            ((values.take 10).map (fun i => toString i))) ∧
        ((values.take 10).map (fun i => toString i)).length ≤ 10) ∧
      (∀ values : List F32,
        cols[col]? = some (ColumnReader.FloatColumnReader
          (ReadRecords.ok complete non_null values)) →
        sample_column { parse_result := Except.ok rgs } rg col =
          some (sampleFormat complete non_null
            ((values.take 10).map F32.rendered)) ∧
        ((values.take 10).map F32.rendered).length ≤ 10) ∧
      (∀ values : List F64,
        cols[col]? = some (ColumnReader.DoubleColumnReader
          (ReadRecords.ok complete non_null values)) →
        sample_column { parse_result := Except.ok rgs } rg col =
          some (sampleFormat complete non_null
            ((values.take 10).map F64.rendered)) ∧
        ((values.take 10).map F64.rendered).length ≤ 10) ∧
      (∀ values : List ByteArrayValue,
        cols[col]? = some (ColumnReader.ByteArrayColumnReader
          (ReadRecords.ok complete non_null values)) →
        sample_column { parse_result := Except.ok rgs } rg col =
          some (sampleFormat complete non_null
            ((values.take 10).map ByteArrayValue.rendered)) ∧
        ((values.take 10).map ByteArrayValue.rendered).length ≤ 10) ∧
      (∀ values : List ByteArrayValue,
        cols[col]? = some (ColumnReader.FixedLenByteArrayColumnReader
          (ReadRecords.ok complete non_null values)) →
        sample_column { parse_result := Except.ok rgs } rg col =
          some (sampleFormat complete non_null
            ((values.take 10).map ByteArrayValue.rendered)) ∧
        ((values.take 10).map ByteArrayValue.rendered).length ≤ 10))) ∧
    (∀ (rgs : List (List ColumnReader)) (rg col : Nat) (cols : List ColumnReader)
        (e : String),
      rgs[rg]? = some cols →
      (cols[col]? = some (ColumnReader.BoolColumnReader (ReadRecords.error e)) ∨
        cols[col]? = some (ColumnReader.Int32ColumnReader (ReadRecords.error e)) ∨
        cols[col]? = some (ColumnReader.Int64ColumnReader (ReadRecords.error e)) ∨
        cols[col]? = some (ColumnReader.FloatColumnReader (ReadRecords.error e)) ∨
        cols[col]? = some (ColumnReader.DoubleColumnReader (ReadRecords.error e)) ∨
        cols[col]? = some (ColumnReader.ByteArrayColumnReader (ReadRecords.error e)) ∨
        cols[col]? = some (ColumnReader.FixedLenByteArrayColumnReader (ReadRecords.error e))) →
      sample_column { parse_result := Except.ok rgs } rg col = none) ∧
    (∀ (rgs : List (List ColumnReader)) (rg col : Nat),
      rgs[rg]? = none →
      sample_column { parse_result := Except.ok rgs } rg col = none) ∧
    (∀ (rgs : List (List ColumnReader)) (rg col : Nat) (cols : List ColumnReader),
      rgs[rg]? = some cols → cols[col]? = none →
      sample_column { parse_result := Except.ok rgs } rg col = none) ∧
    (∀ (e : String) (rg col : Nat),
      sample_column { parse_result := Except.error e } rg col = none) := by
  refine ⟨?_, ?_, ?_, ?_, fun e rg col => rfl⟩
  · intro rgs rg col cols complete non_null h1
    refine ⟨?_, ?_, ?_, ?_, ?_, ?_, ?_⟩ <;>
      exact fun values h2 =>
        ⟨by simp only [sample_column, h1, h2, sampleArm],
         by simp only [List.length_map, List.length_take]; omega⟩
  · intro rgs rg col cols e h1 hd
    rcases hd with h2 | h2 | h2 | h2 | h2 | h2 | h2 <;>
      simp only [sample_column, h1, h2, sampleArm]
  · intro rgs rg col h1
    simp only [sample_column, h1]
  · intro rgs rg col cols h1 h2
    simp only [sample_column, h1, h2]

/-- C7 (amended) witness: the implications discharged at concrete files — an
`Int32` and a `Boolean` successful read, an `Int32` decode failure, a failing
row-group lookup, and a failing column lookup. -/
theorem c7_sample_format_witness :
    sample_column
        { parse_result :=
            Except.ok [[ColumnReader.Int32ColumnReader (ReadRecords.ok 3 3 [5, -2, 7])]] }
        0 0 =
      some (sampleFormat 3 3 ((([5, -2, 7] : List Int).take 10).map (fun i => toString i))) ∧
    sample_column
        { parse_result :=
            Except.ok [[ColumnReader.BoolColumnReader (ReadRecords.ok 2 2 [true, false])]] }
        0 0 =
      some (sampleFormat 2 2 ((([true, false] : List Bool).take 10).map
        (fun b => if b then "true" else "false"))) ∧
    sample_column
        { parse_result :=
            Except.ok [[ColumnReader.Int32ColumnReader (ReadRecords.error "bad page")]] }
        0 0 = none ∧
    sample_column { parse_result := Except.ok ([] : List (List ColumnReader)) } 5 0 = none ∧
    sample_column { parse_result := Except.ok [([] : List ColumnReader)] } 0 3 = none :=
  ⟨(((c7_sample_format.1 [[ColumnReader.Int32ColumnReader (ReadRecords.ok 3 3 [5, -2, 7])]]
      0 0 [ColumnReader.Int32ColumnReader (ReadRecords.ok 3 3 [5, -2, 7])]
      3 3 rfl).2.1) [5, -2, 7] rfl).1,
   (((c7_sample_format.1 [[ColumnReader.BoolColumnReader (ReadRecords.ok 2 2 [true, false])]]
      0 0 [ColumnReader.BoolColumnReader (ReadRecords.ok 2 2 [true, false])]
      2 2 rfl).1) [true, false] rfl).1,
   c7_sample_format.2.1 [[ColumnReader.Int32ColumnReader (ReadRecords.error "bad page")]]
     0 0 [ColumnReader.Int32ColumnReader (ReadRecords.error "bad page")] "bad page" rfl
     (Or.inr (Or.inl rfl)),
   c7_sample_format.2.2.1 ([] : List (List ColumnReader)) 5 0 rfl,
   c7_sample_format.2.2.2.1 [([] : List ColumnReader)] 0 3 ([] : List ColumnReader) rfl rfl⟩
